import Mathlib

/-!
Verification of the PZEM-004T Modbus-RTU driver (pzem.py).

The driver is shallowly embedded: Python byte strings and lists of ints
become List Nat, the mutable PZEM object becomes an explicit state record,
Python float division becomes division in the rationals, and fallible code
(list indexing and list.pop, which raise IndexError) returns Option, where
none marks an exception escaping the enclosing code.
-/

namespace PZEM

/-- Default ModBus-16 CRC table embedded in the driver (class attribute table). -/
def crcTable : List Nat := [
  0x0000, 0xC0C1, 0xC181, 0x0140, 0xC301, 0x03C0, 0x0280, 0xC241,
  0xC601, 0x06C0, 0x0780, 0xC741, 0x0500, 0xC5C1, 0xC481, 0x0440,
  0xCC01, 0x0CC0, 0x0D80, 0xCD41, 0x0F00, 0xCFC1, 0xCE81, 0x0E40,
  0x0A00, 0xCAC1, 0xCB81, 0x0B40, 0xC901, 0x09C0, 0x0880, 0xC841,
  0xD801, 0x18C0, 0x1980, 0xD941, 0x1B00, 0xDBC1, 0xDA81, 0x1A40,
  0x1E00, 0xDEC1, 0xDF81, 0x1F40, 0xDD01, 0x1DC0, 0x1C80, 0xDC41,
  0x1400, 0xD4C1, 0xD581, 0x1540, 0xD701, 0x17C0, 0x1680, 0xD641,
  0xD201, 0x12C0, 0x1380, 0xD341, 0x1100, 0xD1C1, 0xD081, 0x1040,
  0xF001, 0x30C0, 0x3180, 0xF141, 0x3300, 0xF3C1, 0xF281, 0x3240,
  0x3600, 0xF6C1, 0xF781, 0x3740, 0xF501, 0x35C0, 0x3480, 0xF441,
  0x3C00, 0xFCC1, 0xFD81, 0x3D40, 0xFF01, 0x3FC0, 0x3E80, 0xFE41,
  0xFA01, 0x3AC0, 0x3B80, 0xFB41, 0x3900, 0xF9C1, 0xF881, 0x3840,
  0x2800, 0xE8C1, 0xE981, 0x2940, 0xEB01, 0x2BC0, 0x2A80, 0xEA41,
  0xEE01, 0x2EC0, 0x2F80, 0xEF41, 0x2D00, 0xEDC1, 0xEC81, 0x2C40,
  0xE401, 0x24C0, 0x2580, 0xE541, 0x2700, 0xE7C1, 0xE681, 0x2640,
  0x2200, 0xE2C1, 0xE381, 0x2340, 0xE101, 0x21C0, 0x2080, 0xE041,
  0xA001, 0x60C0, 0x6180, 0xA141, 0x6300, 0xA3C1, 0xA281, 0x6240,
  0x6600, 0xA6C1, 0xA781, 0x6740, 0xA501, 0x65C0, 0x6480, 0xA441,
  0x6C00, 0xACC1, 0xAD81, 0x6D40, 0xAF01, 0x6FC0, 0x6E80, 0xAE41,
  0xAA01, 0x6AC0, 0x6B80, 0xAB41, 0x6900, 0xA9C1, 0xA881, 0x6840,
  0x7800, 0xB8C1, 0xB981, 0x7940, 0xBB01, 0x7BC0, 0x7A80, 0xBA41,
  0xBE01, 0x7EC0, 0x7F80, 0xBF41, 0x7D00, 0xBDC1, 0xBC81, 0x7C40,
  0xB401, 0x74C0, 0x7580, 0xB541, 0x7700, 0xB7C1, 0xB681, 0x7640,
  0x7200, 0xB2C1, 0xB381, 0x7340, 0xB101, 0x71C0, 0x7080, 0xB041,
  0x5000, 0x90C1, 0x9181, 0x5140, 0x9301, 0x53C0, 0x5280, 0x9241,
  0x9601, 0x56C0, 0x5780, 0x9741, 0x5500, 0x95C1, 0x9481, 0x5440,
  0x9C01, 0x5CC0, 0x5D80, 0x9D41, 0x5F00, 0x9FC1, 0x9E81, 0x5E40,
  0x5A00, 0x9AC1, 0x9B81, 0x5B40, 0x9901, 0x59C0, 0x5880, 0x9841,
  0x8801, 0x48C0, 0x4980, 0x8941, 0x4B00, 0x8BC1, 0x8A81, 0x4A40,
  0x4E00, 0x8EC1, 0x8F81, 0x4F40, 0x8D01, 0x4DC0, 0x4C80, 0x8C41,
  0x4400, 0x84C1, 0x8581, 0x4540, 0x8701, 0x47C0, 0x4680, 0x8641,
  0x8201, 0x42C0, 0x4380, 0x8341, 0x4100, 0x81C1, 0x8081, 0x4040
]

/-- Method getCRC16: crc starts at 0xFFFF; each byte updates it by
crc = (crc >> 8) ^ table[(crc ^ ch) & 0xFF]. -/
def getCRC16 (frame : List Nat) : Nat :=
  frame.foldl (fun crc ch => (crc >>> 8) ^^^ crcTable.getD ((crc ^^^ ch) &&& 0xFF) 0) 0xFFFF

/-- Python list.pop(): removes and returns the last element; none models the
IndexError raised on an empty list. -/
def pyPop (l : List Nat) : Option (Nat × List Nat) :=
  match l.reverse with
  | [] => none
  | x :: rest => some (x, rest.reverse)

/-- Method checkCRC16: pops the last byte (CRC high), then the next (CRC low),
recomputes the CRC over what remains of the caller's list and compares.
The returned list is the caller's buffer after the two destructive pops;
none models an uncaught IndexError on frames shorter than two bytes. -/
def checkCRC16 (frame : List Nat) : Option (Bool × List Nat) :=
  match pyPop frame with
  | none => none
  | some (hi, f1) =>
    match pyPop f1 with
    | none => none
    | some (lo, f2) => some (((hi <<< 8) ||| lo) == getCRC16 f2, f2)

/-- Method checkAddr: the source line is
not (addr > 0xF8 | addr == 0x00).
In Python the bitwise or binds tighter than the comparisons, which then chain,
so it parses as (addr > (0xF8 | addr)) and ((0xF8 | addr) == 0x00). -/
def checkAddr (addr : Nat) : Bool :=
  !(decide (addr > (0xF8 ||| addr)) && decide ((0xF8 ||| addr) = 0x00))

/-- Method checkResponse: true unless the function-code byte frame[1] is one of
the device error codes 0x84, 0x86, 0xC2; none models the IndexError raised
when the frame has no byte at offset 1. -/
def checkResponse (frame : List Nat) : Option Bool :=
  match frame[1]? with
  | none => none
  | some fc => some (!(fc == 0x84 || fc == 0x86 || fc == 0xC2))

/-- Big-endian two-byte packing of one struct ">H" field (ustruct truncates). -/
def packH (v : Nat) : List Nat := [v / 256 % 256, v % 256]

/-- Frame built and written by sendCommand: for cmd 0x42 a 2-byte body, else
struct.pack(">BBHH", addr, cmd, regAddr, opt); the CRC of the body is appended
low byte first then high byte (crc_l = crc & 0xFF, crc_h = crc >> 8 & 0xFF). -/
def sentFrame (addr cmd regAddr opt : Nat) : List Nat :=
  if cmd = 0x42 then
    let base := [addr % 256, cmd % 256]
    let crc := getCRC16 base
    base ++ [(crc &&& 0xFF) % 256, ((crc >>> 8) &&& 0xFF) % 256]
  else
    let base := [addr % 256, cmd % 256] ++ packH regAddr ++ packH opt
    let crc := getCRC16 base
    base ++ [(crc &&& 0xFF) % 256, ((crc >>> 8) &&& 0xFF) % 256]

/-- Mutable fields of the PZEM object that the receive path can touch. -/
structure PZEMState where
  addr : Nat
  Voltage : ℚ
  Current : ℚ
  ActivePower : ℚ
  ActiveEnergy : ℚ
  Frequency : ℚ
  PowerFactor : ℚ
  Allarms : Nat
  threshold : Nat
deriving DecidableEq, Repr

/-- Class-level defaults of the PZEM object (addr 0xF8, every reading 0). -/
def pzInit : PZEMState :=
  { addr := 0xF8, Voltage := 0, Current := 0, ActivePower := 0, ActiveEnergy := 0,
    Frequency := 0, PowerFactor := 0, Allarms := 0, threshold := 0 }

/-- Method updateValue: dispatches on the echoed function code frame[1] and on
reg (the regAddr argument, None modelled as none). Assignments happen in source
order; an IndexError inside the try block is swallowed and False is returned,
keeping every assignment already executed (a partial commit). Python evaluates
the right-hand side of an assignment before committing it, so a failing index
never commits the field it was computing. -/
def updateValue (st : PZEMState) (frame : List Nat) (reg : Option Nat) : Bool × PZEMState :=
  match frame[1]? with
  | none => (false, st)
  | some fc =>
    if fc = 0x04 then
      match frame[3]?, frame[4]? with
      | some f3, some f4 =>
        let st1 := { st with Voltage := (((f3 <<< 8) ||| f4 : ℕ) : ℚ) / 10 }
        match frame[5]?, frame[6]?, frame[7]?, frame[8]? with
        | some f5, some f6, some f7, some f8 =>
          let st2 := { st1 with
            Current := (((f5 <<< 8) ||| f6 ||| (f7 <<< 24) ||| (f8 <<< 16) : ℕ) : ℚ) / 1000 }
          match frame[9]?, frame[10]?, frame[11]?, frame[12]? with
          | some f9, some f10, some f11, some f12 =>
            let st3 := { st2 with
              ActivePower := (((f9 <<< 8) ||| f10 ||| (f11 <<< 24) ||| (f12 <<< 16) : ℕ) : ℚ) / 10 }
            match frame[13]?, frame[14]?, frame[15]?, frame[16]? with
            | some f13, some f14, some f15, some f16 =>
              let st4 := { st3 with
                ActiveEnergy := (((f13 <<< 8) ||| f14 ||| (f15 <<< 24) ||| (f16 <<< 16) : ℕ) : ℚ) / 1000 }
              match frame[17]?, frame[18]? with
              | some f17, some f18 =>
                let st5 := { st4 with Frequency := (((f17 <<< 8) ||| f18 : ℕ) : ℚ) / 10 }
                match frame[19]?, frame[20]? with
                | some f19, some f20 =>
                  let st6 := { st5 with PowerFactor := (((f19 <<< 8) ||| f20 : ℕ) : ℚ) / 100 }
                  match frame[21]?, frame[22]? with
                  | some f21, some f22 => (true, { st6 with Allarms := (f21 <<< 8) ||| f22 })
                  | _, _ => (false, st6)
                | _, _ => (false, st5)
              | _, _ => (false, st4)
            | _, _, _, _ => (false, st3)
          | _, _, _, _ => (false, st2)
        | _, _, _, _ => (false, st1)
      | _, _ => (false, st)
    else if fc = 0x03 then
      if reg = some 0x01 then
        match frame[3]?, frame[4]? with
        | some f3, some f4 => (true, { st with threshold := (f3 <<< 8) ||| f4 })
        | _, _ => (false, st)
      else if reg = some 0x02 then
        match frame[4]? with
        | some f4 => (true, { st with addr := f4 })
        | none => (false, st)
      else (true, st)
    else if fc = 0x06 then
      match frame[3]? with
      | none => (false, st)
      | some f3 =>
        if f3 = 0x01 then
          match frame[4]?, frame[5]? with
          | some f4, some f5 => (true, { st with threshold := (f4 <<< 8) ||| f5 })
          | _, _ => (false, st)
        else if f3 = 0x02 then
          match frame[5]? with
          | some f5 => (true, { st with addr := f5 })
          | none => (false, st)
        else (true, st)
    else (true, st)

/-- Receive path of sendCommand, after the reply rcv has been read:
checkCRC16(frame) and checkResponse(frame) and len(frame) == buf - 2 and
updateValue(frame, regAddr), with Python short-circuit evaluation; the two
pops inside checkCRC16 shorten the local frame list before the later checks;
none models an exception escaping sendCommand. -/
def processReply (st : PZEMState) (reg : Option Nat) (buf : Nat) (rcv : List Nat) :
    Option (Bool × PZEMState) :=
  match checkCRC16 rcv with
  | none => none
  | some (ok, frame) =>
    if !ok then some (false, st)
    else
      match checkResponse frame with
      | none => none
      | some respOk =>
        if !respOk then some (false, st)
        else if frame.length = buf - 2 then some (updateValue st frame reg)
        else some (false, st)

/-- Method setAddress: if checkAddr(addr) passes, sendCommand writes the frame
for cmd 0x06, register 0x02, value addr; otherwise an Exception object is
built but never raised and nothing is written (modelled as none). -/
def setAddressWrites (selfAddr addr : Nat) : Option (List Nat) :=
  if checkAddr addr then some (sentFrame selfAddr 0x06 0x02 addr) else none

/-! Helper lemmas shared by the claim theorems. -/

theorem pyPop_append (ys : List Nat) (x : Nat) : pyPop (ys ++ [x]) = some (x, ys) := by
  simp [pyPop, List.reverse_append]

theorem checkCRC16_append (ys : List Nat) (l h2 : Nat) :
    checkCRC16 (ys ++ [l, h2]) = some (((h2 <<< 8) ||| l) == getCRC16 ys, ys) := by
  have hsplit : ys ++ [l, h2] = (ys ++ [l]) ++ [h2] := by simp
  rw [hsplit]
  simp only [checkCRC16, pyPop_append]

theorem exists_two_suffix (rcv : List Nat) (hlen : 2 ≤ rcv.length) :
    ∃ ys l h2, rcv = ys ++ [l, h2] := by
  cases hrev : rcv.reverse with
  | nil =>
    have : rcv = [] := by simpa using congrArg List.reverse hrev
    subst this; simp at hlen
  | cons a t =>
    cases t with
    | nil =>
      have : rcv = [a] := by simpa using congrArg List.reverse hrev
      subst this; simp at hlen
    | cons b t2 =>
      refine ⟨t2.reverse, b, a, ?_⟩
      have h2 := congrArg List.reverse hrev
      simpa using h2

theorem recombine_bytes (n : Nat) : ((n >>> 8) <<< 8) ||| (n &&& 0xFF) = n := by
  have h1 : n &&& 0xFF = n % 2 ^ 8 := by
    have h : (0xFF : Nat) = 2 ^ 8 - 1 := by norm_num
    rw [h, Nat.and_pow_two_sub_one_eq_mod]
  have h2 : (n >>> 8) <<< 8 = 2 ^ 8 * (n / 2 ^ 8) := by
    rw [Nat.shiftLeft_eq, Nat.shiftRight_eq_div_pow, Nat.mul_comm]
  rw [h1, h2, ← Nat.mul_add_lt_is_or (Nat.mod_lt n (by norm_num)) (n / 2 ^ 8)]
  exact Nat.div_add_mod n (2 ^ 8)

theorem shiftLeft8_or_eq_add (a b : Nat) (hb : b < 256) : (a <<< 8) ||| b = a * 256 + b := by
  have hb2 : b < 2 ^ 8 := lt_of_lt_of_le hb (by norm_num)
  have key : (a <<< 8) ||| b = 2 ^ 8 * a + b := by
    rw [Nat.shiftLeft_eq, Nat.mul_comm a (2 ^ 8), ← Nat.mul_add_lt_is_or hb2 a]
  rw [key]
  simp [show (2 : Nat) ^ 8 = 256 from by norm_num, Nat.mul_comm]

theorem land255_eq_mod (x : Nat) : x &&& 0xFF = x % 256 := by
  have h : (0xFF : Nat) = 2 ^ 8 - 1 := by norm_num
  rw [h, Nat.and_pow_two_sub_one_eq_mod]

set_option maxRecDepth 4000 in
theorem crcTable_getD_lt (i : Nat) : crcTable.getD i 0 < 65536 := by
  have hmem : ∀ v ∈ crcTable, v < 65536 := by decide
  rw [List.getD_eq_getElem?_getD]
  cases h : crcTable[i]? with
  | none => simp
  | some v => simpa using hmem v (List.getElem?_mem h)

theorem getCRC16_lt (f : List Nat) : getCRC16 f < 65536 := by
  have key : ∀ (g : List Nat) (acc : Nat), acc < 65536 →
      g.foldl (fun crc ch => (crc >>> 8) ^^^ crcTable.getD ((crc ^^^ ch) &&& 0xFF) 0) acc < 65536 := by
    intro g
    induction g with
    | nil => intro acc h; simpa using h
    | cons ch tl ih =>
      intro acc h
      simp only [List.foldl_cons]
      apply ih
      have htbl := crcTable_getD_lt ((acc ^^^ ch) &&& 0xFF)
      have hshift : acc >>> 8 < 65536 :=
        lt_of_le_of_lt (by rw [Nat.shiftRight_eq_div_pow]; exact Nat.div_le_self _ _) h
      have h16 : (65536 : Nat) = 2 ^ 16 := by norm_num
      rw [h16] at hshift htbl ⊢
      apply Nat.lt_pow_two_of_testBit
      intro i hi
      have ha : (acc >>> 8).testBit i = false :=
        Nat.testBit_lt_two_pow (lt_of_lt_of_le hshift (Nat.pow_le_pow_right (by omega) hi))
      have hb : (crcTable.getD ((acc ^^^ ch) &&& 0xFF) 0).testBit i = false :=
        Nat.testBit_lt_two_pow (lt_of_lt_of_le htbl (Nat.pow_le_pow_right (by omega) hi))
      simp only [Nat.testBit_xor, ha, hb, Bool.xor_false]
  exact key f 0xFFFF (by norm_num)

/-- Claim C3: appending the CRC of b, low byte then high byte, always yields a
frame that checkCRC16 accepts (and the surviving buffer is b itself). -/
theorem crc_append_roundtrip (b : List Nat) :
    checkCRC16 (b ++ [getCRC16 b &&& 0xFF, getCRC16 b >>> 8]) = some (true, b) := by
  rw [checkCRC16_append, recombine_bytes]
  simp

/-- Claim C5 counterexample: checkCRC16 does mutate the caller buffer; on the
frame [1, 2, 3, 4] the buffer left behind is [1, 2], not the original frame. -/
theorem checkCRC16_mutates_buffer_cex :
    (checkCRC16 [1, 2, 3, 4]).map Prod.snd = some [1, 2] ∧
      ((checkCRC16 [1, 2, 3, 4]).map Prod.snd ≠ some [1, 2, 3, 4]) := by
  constructor
  · rfl
  · decide

/-- Claim C5 amended: checkCRC16 destructively pops the two trailing CRC bytes;
after the call the caller buffer holds the original frame minus its last two
bytes. -/
theorem checkCRC16_consumes_crc_bytes (ys : List Nat) (l h2 : Nat) :
    (checkCRC16 (ys ++ [l, h2])).map Prod.snd = some ys := by
  rw [checkCRC16_append]
  rfl

/-- Claim C1 (code bug): checkAddr accepts every address because the source
line not (addr > 0xF8 | addr == 0x00) parses as a chained comparison whose
second link (0xF8 | addr) == 0x00 is always false; setAddress with the
out-of-range addresses 0x00 and 0xF9 therefore builds a frame and writes it
to the UART instead of failing before any I/O. -/
theorem checkAddr_accepts_everything :
    (∀ addr, checkAddr addr = true) ∧
      setAddressWrites 0xF8 0x00 = some (sentFrame 0xF8 0x06 0x02 0x00) ∧
      setAddressWrites 0xF8 0xF9 = some (sentFrame 0xF8 0x06 0x02 0xF9) := by
  have hall : ∀ addr, checkAddr addr = true := by
    intro addr
    have hne : (0xF8 ||| addr) ≠ 0 := by
      intro h0
      have h3 := congrArg (fun n => Nat.testBit n 3) h0
      have hbit : Nat.testBit 0xF8 3 = true := by decide
      simp [Nat.testBit_or, hbit] at h3
    simp [checkAddr, hne]
  exact ⟨hall, by simp [setAddressWrites, hall], by simp [setAddressWrites, hall]⟩

/-- Claim C2 (code bug): when the bounded UART read returns no byte (timeout)
or a single byte, list.pop inside checkCRC16 raises IndexError and the
exception escapes sendCommand (result none) instead of a False return. -/
theorem empty_or_one_byte_reply_raises (st : PZEMState) (reg : Option Nat)
    (buf : Nat) (x : Nat) :
    processReply st reg buf [] = none ∧ processReply st reg buf [x] = none := by
  constructor <;> rfl

/-- Claim C10: checkResponse reports failure exactly for the three device
error function codes 0x84, 0x86 and 0xC2 at offset 1; every other code,
0x83 or 0xC1 included, passes. -/
theorem checkResponse_false_iff_error_code (frame : List Nat) (fc : Nat)
    (h : frame[1]? = some fc) :
    checkResponse frame = some false ↔ (fc = 0x84 ∨ fc = 0x86 ∨ fc = 0xC2) := by
  simp [checkResponse, h]
  tauto

/-- Witness for C10 at the non-error code 0x83. -/
theorem checkResponse_false_iff_error_code_witness :
    (([0x01, 0x83] : List Nat)[1]? = some 0x83) ∧
      (checkResponse [0x01, 0x83] = some false ↔
        ((0x83 : Nat) = 0x84 ∨ (0x83 : Nat) = 0x86 ∨ (0x83 : Nat) = 0xC2)) :=
  ⟨by decide, checkResponse_false_iff_error_code [0x01, 0x83] 0x83 (by decide)⟩

theorem processReply_append (st : PZEMState) (reg : Option Nat) (buf : Nat)
    (ys : List Nat) (l h2 : Nat) :
    processReply st reg buf (ys ++ [l, h2]) =
      if ((h2 <<< 8) ||| l) = getCRC16 ys then
        match ys[1]? with
        | none => none
        | some fc =>
          if fc = 0x84 ∨ fc = 0x86 ∨ fc = 0xC2 then some (false, st)
          else if ys.length = buf - 2 then some (updateValue st ys reg)
          else some (false, st)
      else some (false, st) := by
  by_cases hok : ((h2 <<< 8) ||| l) = getCRC16 ys
  · rw [if_pos hok]
    simp only [processReply, checkCRC16_append, hok, beq_self_eq_true, Bool.not_true,
      Bool.false_eq_true, if_false, checkResponse]
    cases hfc : ys[1]? with
    | none => simp
    | some fc =>
      simp only
      by_cases hbad : fc = 0x84 ∨ fc = 0x86 ∨ fc = 0xC2
      · have hb : (fc == 0x84 || fc == 0x86 || fc == 0xC2) = true := by
          rcases hbad with h | h | h <;> simp [h]
        simp [hb, hbad]
      · have hb : (fc == 0x84 || fc == 0x86 || fc == 0xC2) = false := by
          push_neg at hbad
          simp [hbad.1, hbad.2.1, hbad.2.2]
        simp [hb, hbad]
  · rw [if_neg hok]
    have hb : (((h2 <<< 8) ||| l) == getCRC16 ys) = false := by simp [hok]
    simp [processReply, checkCRC16_append, hb]

/-- Claim C6: a 24-byte reply to the 25-byte measurement read is rejected
(False is returned) and the session state, measurement fields included, is
exactly what it was before the call. -/
theorem short_measurement_reply_rejected (st : PZEMState) (reg : Option Nat)
    (rcv : List Nat) (hlen : rcv.length = 24) :
    processReply st reg 25 rcv = some (false, st) := by
  obtain ⟨ys, l, h2, rfl⟩ := exists_two_suffix rcv (by omega)
  have hys : ys.length = 22 := by simp at hlen; omega
  rw [processReply_append]
  by_cases hok : ((h2 <<< 8) ||| l) = getCRC16 ys
  · rw [if_pos hok]
    cases hfc : ys[1]? with
    | none =>
      exfalso
      have := List.getElem?_eq_none_iff.mp hfc
      omega
    | some fc =>
      simp only
      by_cases hbad : fc = 0x84 ∨ fc = 0x86 ∨ fc = 0xC2
      · simp [hbad]
      · simp [hbad, hys]
  · rw [if_neg hok]

/-- Witness for C6 on an all-zero 24-byte reply. -/
theorem short_measurement_reply_rejected_witness :
    processReply pzInit (some 0x00) 25 (List.replicate 24 0) = some (false, pzInit) :=
  short_measurement_reply_rejected pzInit (some 0x00) (List.replicate 24 0) (by decide)

set_option maxRecDepth 4000 in
/-- Claim C9: any reply whose byte at offset 1 is the error function code 0x84
makes sendCommand return False with the session unchanged, whether or not the
trailing CRC is valid: either the CRC check already fails, or checkResponse
rejects the frame. -/
theorem device_error_fc84_rejected (st : PZEMState) (reg : Option Nat) (buf : Nat)
    (rcv : List Nat) (hbytes : ∀ x ∈ rcv, x < 256) (hfc : rcv[1]? = some 0x84) :
    processReply st reg buf rcv = some (false, st) := by
  have hlen : 2 ≤ rcv.length := by
    by_contra hcon
    rw [List.getElem?_eq_none (by omega)] at hfc
    exact Option.noConfusion hfc
  obtain ⟨ys, l, h2, rfl⟩ := exists_two_suffix rcv hlen
  cases ys with
  | nil =>
    have hh2 : h2 = 0x84 := by simpa using hfc
    subst hh2
    rw [processReply_append]
    have hl : l < 256 := hbytes l (by simp)
    have hne : ((0x84 <<< 8) ||| l) ≠ getCRC16 [] := by
      rw [shiftLeft8_or_eq_add 0x84 l hl]
      have hcrc0 : getCRC16 [] = 0xFFFF := rfl
      rw [hcrc0]
      omega
    rw [if_neg hne]
  | cons y0 ys1 =>
    cases ys1 with
    | nil =>
      have hl : l = 0x84 := by simpa using hfc
      subst hl
      rw [processReply_append]
      have hy0 : y0 < 256 := hbytes y0 (by simp)
      have hscan : ∀ y, y < 256 → getCRC16 [y] % 256 ≠ 0x84 := by decide
      have hne : ((h2 <<< 8) ||| 0x84) ≠ getCRC16 [y0] := by
        intro heq
        have hmod := congrArg (fun n => n % 256) heq
        rw [shiftLeft8_or_eq_add h2 0x84 (by norm_num)] at hmod
        simp only at hmod
        have hlow : getCRC16 [y0] % 256 = 0x84 := by omega
        exact hscan y0 hy0 hlow
      rw [if_neg hne]
    | cons y1 ys2 =>
      have hy1 : y1 = 0x84 := by simpa using hfc
      subst hy1
      rw [processReply_append]
      by_cases hok : ((h2 <<< 8) ||| l) = getCRC16 (y0 :: 0x84 :: ys2)
      · rw [if_pos hok]
        have hfc2 : (y0 :: 0x84 :: ys2)[1]? = some 0x84 := by simp
        simp [hfc2]
      · rw [if_neg hok]

/-- Witness for C9: a concrete 4-byte reply carrying function code 0x84. -/
theorem device_error_fc84_rejected_witness :
    processReply pzInit (some 0x00) 25 [0xF8, 0x84, 0x00, 0x00] = some (false, pzInit) :=
  device_error_fc84_rejected pzInit (some 0x00) 25 [0xF8, 0x84, 0x00, 0x00]
    (by decide) (by decide)

/-- Claim C7 counterexample: an exchange can be rejected while a measurement
field has already been committed. The reply below answers a threshold read
(cmd 0x03, buf 7) with function-code byte 0x04 and a valid CRC; updateValue
sets Voltage from bytes 3 and 4 and only then hits IndexError at byte 5, so
sendCommand returns False with Voltage already changed to 225. -/
theorem rejected_exchange_partial_commit_cex :
    processReply pzInit (some 0x01) 7 [0xF8, 0x04, 0x06, 0x08, 0xCA, 0xE3, 0x72] =
        some (false, { pzInit with Voltage := 225 }) ∧
      ({ pzInit with Voltage := 225 } : PZEMState) ≠ pzInit := by
  constructor
  · have hsplit : ([0xF8, 0x04, 0x06, 0x08, 0xCA, 0xE3, 0x72] : List Nat) =
        [0xF8, 0x04, 0x06, 0x08, 0xCA] ++ [0xE3, 0x72] := rfl
    rw [hsplit, processReply_append, if_pos (by decide)]
    have h1 : ([0xF8, 0x04, 0x06, 0x08, 0xCA] : List Nat)[1]? = some 0x04 := by decide
    have h3 : ([0xF8, 0x04, 0x06, 0x08, 0xCA] : List Nat)[3]? = some 0x08 := by decide
    have h4 : ([0xF8, 0x04, 0x06, 0x08, 0xCA] : List Nat)[4]? = some 0xCA := by decide
    have h5 : ([0xF8, 0x04, 0x06, 0x08, 0xCA] : List Nat)[5]? = none := by decide
    have hv : ((0x08 <<< 8) ||| 0xCA : Nat) = 2250 := by decide
    simp only [h1, updateValue, h3, h4, h5, hv, reduceIte]
    norm_num
  · intro hcon
    have hfield := congrArg PZEMState.Voltage hcon
    simp [pzInit] at hfield

/-- Claim C7 amended: a rejection decided before decoding (CRC mismatch,
device error code at offset 1, or wrong reply length) returns False and
leaves the whole session state unchanged; only a failure inside updateValue
can commit a partial decode. -/
theorem prereject_returns_false_state_unchanged (st : PZEMState) (reg : Option Nat)
    (buf : Nat) (rcv : List Nat) (ok : Bool) (f : List Nat)
    (h1 : checkCRC16 rcv = some (ok, f))
    (h2 : ok = false ∨ ∃ fc, f[1]? = some fc ∧
        (fc = 0x84 ∨ fc = 0x86 ∨ fc = 0xC2 ∨ f.length ≠ buf - 2)) :
    processReply st reg buf rcv = some (false, st) := by
  simp only [processReply, h1]
  rcases h2 with hok | ⟨fc, hfc, hbad⟩
  · subst hok; simp
  · cases hokv : ok with
    | false => simp
    | true =>
      simp only [Bool.not_true, Bool.false_eq_true, if_false, checkResponse, hfc]
      by_cases hb : (fc == 0x84 || fc == 0x86 || fc == 0xC2) = true
      · simp [hb]
      · have hb2 : (fc == 0x84 || fc == 0x86 || fc == 0xC2) = false := by
          simpa using hb
        have hlen2 : f.length ≠ buf - 2 := by
          rcases hbad with h | h | h | h
          · exfalso; apply hb; simp [h]
          · exfalso; apply hb; simp [h]
          · exfalso; apply hb; simp [h]
          · exact h
        simp [hb2, hlen2]

/-- Witness for the amended C7: a 4-byte all-zero reply fails the CRC check
and the state is returned untouched. -/
theorem prereject_returns_false_state_unchanged_witness :
    processReply pzInit none 25 [0, 0, 0, 0] = some (false, pzInit) :=
  prereject_returns_false_state_unchanged pzInit none 25 [0, 0, 0, 0] false [0, 0]
    (by decide) (Or.inl rfl)

/-- Claim C8: for the data commands 0x03, 0x04, 0x06 the wire frame is exactly
address, function code, 2-byte big-endian register address, 2-byte big-endian
count-or-value, then CRC low byte and CRC high byte (8 bytes); for the reset
command 0x42 it is address, 0x42, CRC low byte, CRC high byte (4 bytes). -/
theorem sendCommand_wire_layout (addr cmd regAddr opt : Nat) (ha : addr < 256)
    (hc : cmd = 0x03 ∨ cmd = 0x04 ∨ cmd = 0x06) (hr : regAddr < 65536) (ho : opt < 65536) :
    (sentFrame addr cmd regAddr opt =
        [addr, cmd, regAddr / 256, regAddr % 256, opt / 256, opt % 256] ++
          [getCRC16 [addr, cmd, regAddr / 256, regAddr % 256, opt / 256, opt % 256] &&& 0xFF,
            getCRC16 [addr, cmd, regAddr / 256, regAddr % 256, opt / 256, opt % 256] >>> 8] ∧
      (sentFrame addr cmd regAddr opt).length = 8) ∧
    (sentFrame addr 0x42 regAddr opt =
        [addr, 0x42] ++ [getCRC16 [addr, 0x42] &&& 0xFF, getCRC16 [addr, 0x42] >>> 8] ∧
      (sentFrame addr 0x42 regAddr opt).length = 4) := by
  have hne42 : cmd ≠ 0x42 := by rcases hc with h | h | h <;> subst h <;> norm_num
  have hcmd : cmd < 256 := by rcases hc with h | h | h <;> subst h <;> norm_num
  have hmod_addr : addr % 256 = addr := Nat.mod_eq_of_lt ha
  have hmod_cmd : cmd % 256 = cmd := Nat.mod_eq_of_lt hcmd
  have hmod_r : regAddr / 256 % 256 = regAddr / 256 := Nat.mod_eq_of_lt (by omega)
  have hmod_o : opt / 256 % 256 = opt / 256 := Nat.mod_eq_of_lt (by omega)
  have hlow : ∀ c : Nat, (c &&& 0xFF) % 256 = c &&& 0xFF := fun c =>
    Nat.mod_eq_of_lt (lt_of_le_of_lt Nat.and_le_right (by norm_num))
  have hhigh : ∀ c : Nat, c < 65536 → (c >>> 8) &&& 0xFF = c >>> 8 := by
    intro c hcbound
    have hs : c >>> 8 < 256 := by
      rw [Nat.shiftRight_eq_div_pow]
      omega
    rw [land255_eq_mod, Nat.mod_eq_of_lt hs]
  have hhm : ∀ c : Nat, c < 65536 → (c >>> 8) % 256 = c >>> 8 := by
    intro c hcbound
    have hs : c >>> 8 < 256 := by
      rw [Nat.shiftRight_eq_div_pow]
      omega
    exact Nat.mod_eq_of_lt hs
  constructor
  · have hbody : sentFrame addr cmd regAddr opt =
        [addr, cmd, regAddr / 256, regAddr % 256, opt / 256, opt % 256] ++
          [getCRC16 [addr, cmd, regAddr / 256, regAddr % 256, opt / 256, opt % 256] &&& 0xFF,
            getCRC16 [addr, cmd, regAddr / 256, regAddr % 256, opt / 256, opt % 256] >>> 8] := by
      simp only [sentFrame, packH, if_neg hne42, hmod_addr, hmod_cmd, hmod_r, hmod_o,
        List.cons_append, List.nil_append, hlow,
        hhigh _ (getCRC16_lt [addr, cmd, regAddr / 256, regAddr % 256, opt / 256, opt % 256]),
        hhm _ (getCRC16_lt [addr, cmd, regAddr / 256, regAddr % 256, opt / 256, opt % 256])]
    exact ⟨hbody, by rw [hbody]; rfl⟩
  · have hbody : sentFrame addr 0x42 regAddr opt =
        [addr, 0x42] ++ [getCRC16 [addr, 0x42] &&& 0xFF, getCRC16 [addr, 0x42] >>> 8] := by
      simp only [sentFrame, reduceIte, hmod_addr, show (0x42 : Nat) % 256 = 0x42 from rfl,
        List.cons_append, List.nil_append, hlow, hhigh _ (getCRC16_lt [addr, 0x42]),
        hhm _ (getCRC16_lt [addr, 0x42])]
    exact ⟨hbody, by rw [hbody]; rfl⟩

/-- Witness for C8 at the measurement-read command read(): cmd 0x04,
register 0x00, count 0x0A, from the default address 0xF8. -/
theorem sendCommand_wire_layout_witness :
    sentFrame 0xF8 0x04 0x00 0x0A =
        [0xF8, 0x04, 0x00 / 256, 0x00 % 256, 0x0A / 256, 0x0A % 256] ++
          [getCRC16 [0xF8, 0x04, 0x00 / 256, 0x00 % 256, 0x0A / 256, 0x0A % 256] &&& 0xFF,
            getCRC16 [0xF8, 0x04, 0x00 / 256, 0x00 % 256, 0x0A / 256, 0x0A % 256] >>> 8] :=
  ((sendCommand_wire_layout 0xF8 0x04 0x00 0x0A (by norm_num) (Or.inr (Or.inl rfl))
    (by norm_num) (by norm_num)).1).1

/-- Claim C4: a 25-byte function-code-0x04 reply that passes the CRC check
(and hence the shape check) decodes Voltage as the big-endian 16-bit value at
bytes 3-4 of the CRC-stripped frame divided by 10, and Current as the
word-swapped 32-bit value from bytes 5-8 divided by 1000. -/
theorem measurement_decode_voltage_current (st : PZEMState) (reg : Option Nat)
    (ys : List Nat) (l h2 v3 v4 v5 v6 v7 v8 : Nat)
    (hlen : ys.length = 23) (hfc : ys[1]? = some 0x04)
    (hcrc : (h2 <<< 8) ||| l = getCRC16 ys)
    (h3 : ys[3]? = some v3) (h4 : ys[4]? = some v4) (h5 : ys[5]? = some v5)
    (h6 : ys[6]? = some v6) (h7 : ys[7]? = some v7) (h8 : ys[8]? = some v8) :
    ∃ st2, processReply st reg 25 (ys ++ [l, h2]) = some (true, st2) ∧
      st2.Voltage = (((v3 <<< 8) ||| v4 : Nat) : ℚ) / 10 ∧
      st2.Current = (((v5 <<< 8) ||| v6 ||| (v7 <<< 24) ||| (v8 <<< 16) : Nat) : ℚ) / 1000 := by
  have hidx : ∀ i, i < 23 → ∃ v, ys[i]? = some v := by
    intro i hi
    exact ⟨_, List.getElem?_eq_getElem (by omega)⟩
  obtain ⟨v9, h9⟩ := hidx 9 (by omega)
  obtain ⟨v10, h10⟩ := hidx 10 (by omega)
  obtain ⟨v11, h11⟩ := hidx 11 (by omega)
  obtain ⟨v12, h12⟩ := hidx 12 (by omega)
  obtain ⟨v13, h13⟩ := hidx 13 (by omega)
  obtain ⟨v14, h14⟩ := hidx 14 (by omega)
  obtain ⟨v15, h15⟩ := hidx 15 (by omega)
  obtain ⟨v16, h16⟩ := hidx 16 (by omega)
  obtain ⟨v17, h17⟩ := hidx 17 (by omega)
  obtain ⟨v18, h18⟩ := hidx 18 (by omega)
  obtain ⟨v19, h19⟩ := hidx 19 (by omega)
  obtain ⟨v20, h20⟩ := hidx 20 (by omega)
  obtain ⟨v21, h21⟩ := hidx 21 (by omega)
  obtain ⟨v22, h22⟩ := hidx 22 (by omega)
  have hupd : updateValue st ys reg =
      (true, { st with
        Voltage := (((v3 <<< 8) ||| v4 : Nat) : ℚ) / 10,
        Current := (((v5 <<< 8) ||| v6 ||| (v7 <<< 24) ||| (v8 <<< 16) : Nat) : ℚ) / 1000,
        ActivePower := (((v9 <<< 8) ||| v10 ||| (v11 <<< 24) ||| (v12 <<< 16) : Nat) : ℚ) / 10,
        ActiveEnergy := (((v13 <<< 8) ||| v14 ||| (v15 <<< 24) ||| (v16 <<< 16) : Nat) : ℚ) / 1000,
        Frequency := (((v17 <<< 8) ||| v18 : Nat) : ℚ) / 10,
        PowerFactor := (((v19 <<< 8) ||| v20 : Nat) : ℚ) / 100,
        Allarms := (v21 <<< 8) ||| v22 }) := by
    simp only [updateValue, hfc, h3, h4, h5, h6, h7, h8, h9, h10, h11, h12, h13, h14,
      h15, h16, h17, h18, h19, h20, h21, h22, reduceIte]
  refine ⟨(updateValue st ys reg).2, ?_, ?_, ?_⟩
  · rw [processReply_append, if_pos hcrc]
    simp only [hfc]
    rw [if_neg (by norm_num), if_pos (by omega), hupd]
  · rw [hupd]
  · rw [hupd]

/-- Witness for C4: the spec example reply, Voltage bytes 0x08 0xCA and
Current bytes 0x01 0x2C 0x00 0x00, decodes to Voltage 225 and Current 0.3. -/
theorem measurement_decode_voltage_current_witness :
    ∃ st2, processReply pzInit (some 0x00) 25
        ([0xF8, 0x04, 0x14, 0x08, 0xCA, 0x01, 0x2C, 0x00, 0x00, 0, 0, 0, 0, 0, 0, 0, 0,
          0, 0, 0, 0, 0, 0] ++ [0xFF, 0x4F]) = some (true, st2) ∧
      st2.Voltage = 225 ∧ st2.Current = 3 / 10 := by
  obtain ⟨st2, hp, hv, hc⟩ := measurement_decode_voltage_current pzInit (some 0x00)
    [0xF8, 0x04, 0x14, 0x08, 0xCA, 0x01, 0x2C, 0x00, 0x00, 0, 0, 0, 0, 0, 0, 0, 0,
      0, 0, 0, 0, 0, 0] 0xFF 0x4F 0x08 0xCA 0x01 0x2C 0x00 0x00
    (by decide) (by decide) (by decide) (by decide) (by decide) (by decide)
    (by decide) (by decide) (by decide)
  refine ⟨st2, hp, ?_, ?_⟩
  · rw [hv, show ((0x08 <<< 8) ||| 0xCA : Nat) = 2250 from by decide]
    norm_num
  · rw [hc, show ((0x01 <<< 8) ||| 0x2C ||| (0x00 <<< 24) ||| (0x00 <<< 16) : Nat) = 300 from by decide]
    norm_num

end PZEM
